import Mathlib

/-!
Shallow embedding of the News-Application editorial, membership and
subscription logic (news_app/models.py, news_app/views.py,
news_app/signals.py, news_app/permissions.py), together with theorems
settling the specification claims about it.

Conventions of the embedding:
* Database rows are Lean structures; foreign keys are numeric ids,
  nullable columns are `Option`.
* Each Django view is a pure function from the acting (authenticated)
  user and the touched rows to the updated rows plus the flash message /
  HTTP response it produces; `timezone.now()` becomes an explicit `now`
  argument.  Only the mutating (POST) path of each view is modelled.
* Many-to-many relations are lists of ids; Django's `add` is modelled
  as append-if-absent and `remove` as erase, matching the relation-table
  semantics.
-/

/-- The closed role enumeration of `CustomUser.ROLE_CHOICES`. -/
inductive Role where
  | reader
  | editor
  | journalist
  | publisher
deriving DecidableEq, Repr

/-- `CustomUser` (models.py): identity plus the three subscription
many-to-many relations, as lists of target ids
(`subscribed_newsletters` holds newsletter ids, `subscribed_publishers`
publisher ids, `subscribed_journalists` user ids). -/
structure CustomUser where
  id : Nat
  username : String
  email : String
  role : Role
  subscribed_newsletters : List Nat
  subscribed_publishers : List Nat
  subscribed_journalists : List Nat
deriving DecidableEq, Repr

/-- `Article` (models.py).  Timestamps are abstract instants (`Nat`);
nullable columns are `Option`. -/
structure Article where
  id : Nat
  title : String
  content : String
  summary : String
  authorId : Nat
  publisherId : Option Nat
  independently_published : Bool
  is_approved : Bool
  approvedById : Option Nat
  is_rejected : Bool
  rejected_reason : Option String
  rejectedById : Option Nat
  approval_date : Option Nat
  rejected_date : Option Nat
  published_date : Option Nat
deriving DecidableEq, Repr

/-- Outcome of a mutating web view on an article: the flash message it
issued (if any), the article row afterwards, and whether a save was
performed (`saved = false` means the view returned without touching the
database, hence also without firing any post-save signal). -/
structure ViewResult where
  message : Option String
  article : Article
  saved : Bool
deriving DecidableEq, Repr

/-- `approve_article` (views.py lines 547-575), POST path.  The view is
decorated only with `login_required`; it checks the article's state but
not the acting user's role. -/
def approve_article (user : CustomUser) (now : Nat) (article : Article) :
    ViewResult :=
  if article.is_rejected then
    ⟨some "This article was rejected and cannot be approved.", article, false⟩
  else if article.is_approved then
    ⟨some "This article is already approved.", article, false⟩
  else
    ⟨none,
     { article with
        is_approved := true
        approvedById := some user.id
        approval_date := some now
        published_date := some now },
     true⟩

/-- `reject_article` (views.py lines 578-600), POST path.  The reason is
read with `request.POST.get("reason", "")`, so a missing reason defaults
to the empty string; `is_approved` is unconditionally set to `False`. -/
def reject_article (user : CustomUser) (now : Nat) (reason : Option String)
    (article : Article) : ViewResult :=
  ⟨some "Article rejected.",
   { article with
      is_approved := false
      is_rejected := true
      rejectedById := some user.id
      rejected_date := some now
      rejected_reason := some (reason.getD "") },
   true⟩

/-- `publish_independently` (views.py lines 603-620).  The
`get_object_or_404(Article, pk=pk, author=request.user)` lookup fails
(404, no change) unless the acting user is the author; otherwise the
flags are set with no check of the current state. -/
def publish_independently (user : CustomUser) (now : Nat)
    (article : Article) : ViewResult :=
  if article.authorId = user.id then
    ⟨some "Your article has been published independently.",
     { article with
        independently_published := true
        is_approved := true
        approval_date := some now
        published_date := some now },
     true⟩
  else
    ⟨none, article, false⟩

/-- The fields of `ArticleForm` (forms.py: title, content, publisher,
image, summary); the image upload is not modelled. -/
structure ArticleForm where
  title : String
  content : String
  summary : String
  publisherId : Option Nat
deriving DecidableEq, Repr

/-- Applying a valid `ArticleForm` to an article instance
(`form.save(commit=False)` updates exactly the form's model fields). -/
def apply_form (f : ArticleForm) (a : Article) : Article :=
  { a with
     title := f.title
     content := f.content
     summary := f.summary
     publisherId := f.publisherId }

/-- `edit_article` (views.py lines 169-214), POST path with a valid
form.  Journalists may edit their own unapproved articles, in which case
a rejected article is reset to pending; editors may edit any article
with no such reset; other roles are denied. -/
def edit_article (user : CustomUser) (f : ArticleForm) (article : Article) :
    ViewResult :=
  if user.role = Role.journalist then
    if article.authorId ≠ user.id then
      ⟨some "You can only edit your own articles.", article, false⟩
    else if article.is_approved then
      ⟨some "Cannot edit approved articles. Contact an editor.", article, false⟩
    else
      let ai := apply_form f article
      let ai :=
        if ai.is_rejected then
          { ai with
             is_rejected := false
             rejected_reason := none
             rejectedById := none
             rejected_date := none }
        else ai
      ⟨some "Article updated successfully!", ai, true⟩
  else if user.role = Role.editor then
    ⟨some "Article updated successfully!", apply_form f article, true⟩
  else
    ⟨some "You do not have permission to edit articles.", article, false⟩

/-- The four article-mutating operations quantified over by claim C1. -/
inductive EditorialOp where
  | approve (user : CustomUser) (now : Nat)
  | reject (user : CustomUser) (now : Nat) (reason : Option String)
  | publish (user : CustomUser) (now : Nat)
  | edit (user : CustomUser) (f : ArticleForm)
deriving Repr

/-- Whether the operation is `publish_independently`. -/
def EditorialOp.isPublish : EditorialOp → Bool
  | .publish _ _ => true
  | _ => false

/-- The article state produced by one editorial operation (a denied or
404-ing view leaves the row unchanged). -/
def applyOp : EditorialOp → Article → Article
  | .approve u now, a => (approve_article u now a).article
  | .reject u now r, a => (reject_article u now r a).article
  | .publish u now, a => (publish_independently u now a).article
  | .edit u f, a => (edit_article u f a).article

/-- The article state after a sequence of editorial operations. -/
def applyOps (ops : List EditorialOp) (a : Article) : Article :=
  ops.foldl (fun s op => applyOp op s) a

/-- The mutual-exclusion invariant of the two status flags. -/
def flagsExclusive (a : Article) : Prop :=
  ¬(a.is_approved = true ∧ a.is_rejected = true)

instance (a : Article) : Decidable (flagsExclusive a) := by
  unfold flagsExclusive; infer_instance

/-- A pending article by journalist 1 (no publisher). -/
def sampleArticle : Article :=
  ⟨10, "Title", "Content", "Summary", 1, none, false, false, none, false,
   none, none, none, none, none⟩

/-- A journalist, author of `sampleArticle`. -/
def sampleJournalist : CustomUser :=
  ⟨1, "journalist1", "j@example.com", Role.journalist, [], [], []⟩

/-- An editor. -/
def sampleEditor : CustomUser :=
  ⟨2, "editor1", "e@example.com", Role.editor, [], [], []⟩

/-- A reader. -/
def sampleReader : CustomUser :=
  ⟨3, "reader1", "r@example.com", Role.reader, [], [], []⟩

example :
    ¬ flagsExclusive
      (applyOps
        [EditorialOp.reject sampleEditor 1 (some "bad"),
         EditorialOp.publish sampleJournalist 2] sampleArticle) := by
  decide

/-- `IsEditor.has_permission` (permissions.py lines 11-33): the request
user must exist (be authenticated) and have the editor role.  The class
is defined but is not attached to the `approve_article` web view, whose
only decorator is `login_required`. -/
def IsEditor_has_permission (authenticated : Bool) (user : CustomUser) :
    Bool :=
  authenticated && (user.role == Role.editor)

/-- Every editorial operation other than `publish_independently`
preserves the mutual exclusion of the two status flags. -/
theorem applyOp_preserves_flagsExclusive (op : EditorialOp) (a : Article)
    (hinv : flagsExclusive a) (hop : op.isPublish = false) :
    flagsExclusive (applyOp op a) := by
  cases op with
  | approve u now =>
      simp only [applyOp, approve_article]
      split
      · exact hinv
      · split
        · exact hinv
        · simp_all [flagsExclusive]
  | reject u now r =>
      simp [applyOp, reject_article, flagsExclusive]
  | publish u now =>
      simp [EditorialOp.isPublish] at hop
  | edit u f =>
      simp only [applyOp, edit_article, apply_form]
      split_ifs <;> simp_all [flagsExclusive]

/-- C1.  As stated the claim is false (see `C1_counterexample`): the
amended claim proved here is that for every article satisfying the
invariant and every sequence of the operations `approve_article`,
`reject_article` and `edit_article` — that is, any sequence avoiding
`publish_independently` — the flags `is_approved` and `is_rejected` are
never simultaneously true in the resulting state. -/
theorem C1_flags_exclusive_without_independent_publish (a : Article)
    (ops : List EditorialOp) (hinv : flagsExclusive a)
    (hops : ∀ op ∈ ops, op.isPublish = false) :
    flagsExclusive (applyOps ops a) := by
  induction ops generalizing a with
  | nil => exact hinv
  | cons op rest ih =>
      have h1 : flagsExclusive (applyOp op a) :=
        applyOp_preserves_flagsExclusive op a hinv
          (hops op (List.mem_cons_self _ _))
      simpa [applyOps] using
        ih (applyOp op a) h1 (fun o ho => hops o (List.mem_cons_of_mem _ ho))

/-- C1 counterexample: starting from a pending article (flags mutually
exclusive), rejecting it and then having its author publish it
independently yields a state with `is_approved` and `is_rejected` both
true — `publish_independently` sets `is_approved` without checking or
clearing `is_rejected`. -/
theorem C1_counterexample :
    flagsExclusive sampleArticle ∧
    ¬ flagsExclusive
        (applyOps
          [EditorialOp.reject sampleEditor 1 (some "bad"),
           EditorialOp.publish sampleJournalist 2] sampleArticle) := by
  decide

/-- Witness for `C1_flags_exclusive_without_independent_publish` at a
concrete approve-reject-edit sequence. -/
theorem C1_flags_exclusive_witness :
    flagsExclusive
      (applyOps
        [EditorialOp.approve sampleEditor 1,
         EditorialOp.reject sampleEditor 2 (some "needs work"),
         EditorialOp.edit sampleJournalist ⟨"T2", "C2", "S2", none⟩]
        sampleArticle) :=
  C1_flags_exclusive_without_independent_publish sampleArticle _
    (by decide) (by decide)

/-- C2.  The claim is right about the intended policy and the code is
wrong: the `approve_article` web view is decorated only with
`login_required` and never consults the acting user's role (the
`IsEditor` permission class exists but is attached only to API
update/destroy actions, and the editor gate guards only the pending-list
page).  Concretely, a reader approving a pending article is not denied:
the save happens and the article becomes approved with the reader
recorded as approver. -/
theorem C2_code_bug_reader_can_approve :
    IsEditor_has_permission true sampleReader = false ∧
    sampleReader.role ≠ Role.editor ∧
    sampleArticle.is_approved = false ∧
    sampleArticle.is_rejected = false ∧
    (approve_article sampleReader 5 sampleArticle).saved = true ∧
    (approve_article sampleReader 5 sampleArticle).article.is_approved
      = true ∧
    (approve_article sampleReader 5 sampleArticle).article.approvedById
      = some sampleReader.id := by
  decide

/-- C3.  As stated the claim is false (see `C3_counterexample`): the
amended claim proved here is that the reject operation accepts an
optional reason defaulting to the empty string (it is not required),
and its effects are to set `is_rejected`, the rejecter, the rejection
timestamp and the rejection reason, and additionally to force
`is_approved` to false; every other field is left unchanged. -/
theorem C3_reject_effects (u : CustomUser) (now : Nat)
    (reason : Option String) (a : Article) :
    (reject_article u now reason a).saved = true ∧
    (reject_article u now reason a).article.is_rejected = true ∧
    (reject_article u now reason a).article.is_approved = false ∧
    (reject_article u now reason a).article.rejectedById = some u.id ∧
    (reject_article u now reason a).article.rejected_date = some now ∧
    (reject_article u now reason a).article.rejected_reason
      = some (reason.getD "") ∧
    (reject_article u now reason a).article.id = a.id ∧
    (reject_article u now reason a).article.title = a.title ∧
    (reject_article u now reason a).article.content = a.content ∧
    (reject_article u now reason a).article.summary = a.summary ∧
    (reject_article u now reason a).article.authorId = a.authorId ∧
    (reject_article u now reason a).article.publisherId = a.publisherId ∧
    (reject_article u now reason a).article.independently_published
      = a.independently_published ∧
    (reject_article u now reason a).article.approvedById = a.approvedById ∧
    (reject_article u now reason a).article.approval_date
      = a.approval_date ∧
    (reject_article u now reason a).article.published_date
      = a.published_date := by
  simp [reject_article]

/-- The state of `sampleArticle` after an editor approves it. -/
def approvedArticle : Article :=
  (approve_article sampleEditor 3 sampleArticle).article

/-- C3 counterexample: rejecting an approved article with no reason
supplied succeeds anyway (the reason is not required, it defaults to
the empty string) and flips `is_approved` from true to false, so
`is_approved` is not left unchanged. -/
theorem C3_counterexample :
    approvedArticle.is_approved = true ∧
    (reject_article sampleEditor 7 none approvedArticle).saved = true ∧
    (reject_article sampleEditor 7 none approvedArticle).article.is_approved
      = false ∧
    (reject_article sampleEditor 7 none approvedArticle).article.rejected_reason
      = some "" := by
  decide

/-- The state of `sampleArticle` after an editor rejects it. -/
def rejectedArticle : Article :=
  (reject_article sampleEditor 4 (some "needs work") sampleArticle).article

/-- An article carrying both status flags, reached from a pending
article by an editor rejection followed by the author publishing it
independently. -/
def bothFlagsArticle : Article :=
  applyOps
    [EditorialOp.reject sampleEditor 1 (some "bad"),
     EditorialOp.publish sampleJournalist 2] sampleArticle

/-- C4.  As stated the claim is false (see `C4_counterexample`, which
exhibits a reachable article flagged both approved and rejected): the
amended claim proved here is that for every approved article *that is
not also flagged rejected* the approve operation is a no-op reporting
"already approved", and for every rejected article — even one also
flagged approved, the rejection check taking precedence — the approve
operation is refused with an explicit error; in both cases the article
is unchanged and no save occurs (`saved = false`), so no post-save
notification signal fires. -/
theorem C4_approve_reentry (u : CustomUser) (now : Nat) (a : Article) :
    (a.is_rejected = true →
      approve_article u now a =
        ⟨some "This article was rejected and cannot be approved.", a,
         false⟩) ∧
    (a.is_approved = true → a.is_rejected = false →
      approve_article u now a =
        ⟨some "This article is already approved.", a, false⟩) := by
  constructor
  · intro h
    simp [approve_article, h]
  · intro h1 h2
    simp [approve_article, h1, h2]

/-- C4 counterexample: `bothFlagsArticle` is an already-approved
article, yet approving it does not report "already approved" — the
rejection guard fires first and reports the rejection error instead. -/
theorem C4_counterexample :
    bothFlagsArticle.is_approved = true ∧
    (approve_article sampleEditor 9 bothFlagsArticle).message ≠
      some "This article is already approved." ∧
    (approve_article sampleEditor 9 bothFlagsArticle).message =
      some "This article was rejected and cannot be approved." := by
  decide

/-- Witness for `C4_approve_reentry` at a concrete rejected article and
a concrete approved article. -/
theorem C4_approve_reentry_witness :
    approve_article sampleEditor 9 rejectedArticle =
      ⟨some "This article was rejected and cannot be approved.",
       rejectedArticle, false⟩ ∧
    approve_article sampleEditor 9 approvedArticle =
      ⟨some "This article is already approved.", approvedArticle, false⟩ :=
  ⟨(C4_approve_reentry sampleEditor 9 rejectedArticle).1 (by decide),
   (C4_approve_reentry sampleEditor 9 approvedArticle).2 (by decide)
     (by decide)⟩

/-- `Publisher` (models.py): owner and the two membership many-to-many
sets, as lists of user ids. -/
structure Publisher where
  id : Nat
  name : String
  ownerId : Option Nat
  editors : List Nat
  journalists : List Nat
deriving DecidableEq, Repr

/-- `PublisherJoinRequest.STATUS_CHOICES`. -/
inductive JoinStatus where
  | pending
  | approved
  | rejected
deriving DecidableEq, Repr

/-- `PublisherJoinRequest` (models.py). -/
structure PublisherJoinRequest where
  id : Nat
  userId : Nat
  publisherId : Nat
  status : JoinStatus
  reviewedById : Option Nat
  reviewedAt : Option Nat
deriving DecidableEq, Repr

/-- Django's many-to-many `add`: a no-op when the id is already
related, otherwise the relation row is inserted. -/
def m2m_add (x : Nat) (xs : List Nat) : List Nat :=
  if x ∈ xs then xs else xs ++ [x]

/-- Outcome of a join-request review view: the request row, the
publisher row (whose membership sets the approve view may mutate), and
the flash message. -/
structure JoinReviewResult where
  joinRequest : PublisherJoinRequest
  publisher : Publisher
  flash : String
deriving DecidableEq, Repr

/-- `approve_join_request` (views.py lines 890-925).  `requester` is the
`CustomUser` row referenced by `jr.userId` (its role selects which
membership set grows).  Only ownership is checked — the view never
inspects `jr.status`. -/
def approve_join_request (actor : CustomUser) (now : Nat)
    (requester : CustomUser) (pub : Publisher)
    (jr : PublisherJoinRequest) : JoinReviewResult :=
  if some actor.id = pub.ownerId then
    let jr' := { jr with
                  status := JoinStatus.approved
                  reviewedById := some actor.id
                  reviewedAt := some now }
    let pub' :=
      if requester.role = Role.journalist then
        { pub with journalists := m2m_add jr.userId pub.journalists }
      else if requester.role = Role.editor then
        { pub with editors := m2m_add jr.userId pub.editors }
      else pub
    ⟨jr', pub', requester.username ++ " has been added to the team."⟩
  else
    ⟨jr, pub, "You are not allowed to approve this request."⟩

/-- `reject_join_request` (views.py lines 927-963).  Only ownership is
checked; the code after the first `return redirect(...)` is
unreachable and is not modelled. -/
def reject_join_request (actor : CustomUser) (now : Nat)
    (requester : CustomUser) (pub : Publisher)
    (jr : PublisherJoinRequest) : JoinReviewResult :=
  if some actor.id = pub.ownerId then
    ⟨{ jr with
        status := JoinStatus.rejected
        reviewedById := some actor.id
        reviewedAt := some now },
     pub,
     "Join request from " ++ requester.username ++ " has been rejected."⟩
  else
    ⟨jr, pub, "You are not allowed to approve this request."⟩

/-- C5.  As stated the claim is false (see `C5_counterexample`): the
amended claim proved here is that the review operations are guarded
only by ownership, not by the pending status.  When the actor is not
the publisher's owner, neither operation changes the request, the
reviewer fields or the membership sets; when the actor is the owner,
approve sets the status to approved, stamps the reviewer fields and
adds the requester to the membership set matching its role, and reject
sets the status to rejected and stamps the reviewer fields without
membership change — in both cases regardless of the request's prior
status, so approved and rejected are not terminal states. -/
theorem C5_join_request_review (actor requester : CustomUser) (now : Nat)
    (pub : Publisher) (jr : PublisherJoinRequest) :
    (some actor.id ≠ pub.ownerId →
      (approve_join_request actor now requester pub jr).joinRequest = jr ∧
      (approve_join_request actor now requester pub jr).publisher = pub ∧
      (reject_join_request actor now requester pub jr).joinRequest = jr ∧
      (reject_join_request actor now requester pub jr).publisher = pub) ∧
    (some actor.id = pub.ownerId →
      (approve_join_request actor now requester pub jr).joinRequest =
        { jr with
           status := JoinStatus.approved
           reviewedById := some actor.id
           reviewedAt := some now } ∧
      (approve_join_request actor now requester pub jr).publisher =
        (if requester.role = Role.journalist then
          { pub with journalists := m2m_add jr.userId pub.journalists }
         else if requester.role = Role.editor then
          { pub with editors := m2m_add jr.userId pub.editors }
         else pub) ∧
      (reject_join_request actor now requester pub jr).joinRequest =
        { jr with
           status := JoinStatus.rejected
           reviewedById := some actor.id
           reviewedAt := some now } ∧
      (reject_join_request actor now requester pub jr).publisher = pub) := by
  constructor
  · intro h
    simp [approve_join_request, reject_join_request, h]
  · intro h
    simp [approve_join_request, reject_join_request, h]

/-- The owner of `samplePublisherOrg`. -/
def sampleOwner : CustomUser :=
  ⟨4, "owner1", "o@example.com", Role.publisher, [], [], []⟩

/-- A publisher organization owned by `sampleOwner`, with no members. -/
def samplePublisherOrg : Publisher :=
  ⟨20, "Daily Planet", some 4, [], []⟩

/-- A join request by `sampleJournalist` to `samplePublisherOrg` that
has already been rejected. -/
def resolvedJoinRequest : PublisherJoinRequest :=
  ⟨30, 1, 20, JoinStatus.rejected, some 4, some 6⟩

/-- C5 counterexample: a join request already in the terminal rejected
state is re-approved by the owner — its status changes to approved and
the requester is added to the publisher's journalist set, so rejected
is not a terminal state. -/
theorem C5_counterexample :
    resolvedJoinRequest.status = JoinStatus.rejected ∧
    (approve_join_request sampleOwner 8 sampleJournalist
        samplePublisherOrg resolvedJoinRequest).joinRequest.status =
      JoinStatus.approved ∧
    (approve_join_request sampleOwner 8 sampleJournalist
        samplePublisherOrg resolvedJoinRequest).publisher.journalists =
      [1] ∧
    samplePublisherOrg.journalists = [] := by
  decide

/-- Witness for `C5_join_request_review`: the non-owner branch at
`sampleReader` (not the owner) and the owner branch at `sampleOwner`. -/
theorem C5_join_request_review_witness :
    ((approve_join_request sampleReader 8 sampleJournalist
        samplePublisherOrg resolvedJoinRequest).joinRequest =
      resolvedJoinRequest ∧
     (approve_join_request sampleReader 8 sampleJournalist
        samplePublisherOrg resolvedJoinRequest).publisher =
      samplePublisherOrg ∧
     (reject_join_request sampleReader 8 sampleJournalist
        samplePublisherOrg resolvedJoinRequest).joinRequest =
      resolvedJoinRequest ∧
     (reject_join_request sampleReader 8 sampleJournalist
        samplePublisherOrg resolvedJoinRequest).publisher =
      samplePublisherOrg) ∧
    (approve_join_request sampleOwner 8 sampleJournalist
        samplePublisherOrg resolvedJoinRequest).joinRequest =
      { resolvedJoinRequest with
         status := JoinStatus.approved
         reviewedById := some sampleOwner.id
         reviewedAt := some 8 } :=
  ⟨(C5_join_request_review sampleReader sampleJournalist 8
      samplePublisherOrg resolvedJoinRequest).1 (by decide),
   ((C5_join_request_review sampleOwner sampleJournalist 8
      samplePublisherOrg resolvedJoinRequest).2 (by decide)).1⟩

/-- `CustomUser.save` (models.py lines 189-215), restricted to its
effect on the subscription relations: after the row is written, the
three subscription sets are cleared when the role is journalist and
left alone for the other roles (the group bookkeeping is not
modelled). -/
def CustomUser.save (u : CustomUser) : CustomUser :=
  if u.role = Role.journalist then
    { u with
       subscribed_newsletters := []
       subscribed_journalists := []
       subscribed_publishers := [] }
  else u

/-- `CustomUser.clean` (models.py lines 217-234).  `hasPk` is whether
`self.pk` is set: validation is skipped entirely for unsaved rows.  For
a saved journalist the check raises when `subscribed_newsletters` or
`subscribed_journalists` is non-empty — `subscribed_publishers` is not
inspected. -/
def CustomUser.clean (u : CustomUser) (hasPk : Bool) :
    Except String Unit :=
  if !hasPk then
    Except.ok ()
  else if u.role = Role.journalist then
    if !u.subscribed_newsletters.isEmpty
        || !u.subscribed_journalists.isEmpty then
      Except.error "Journalists cannot have reader subscriptions."
    else
      Except.ok ()
  else
    Except.ok ()

/-- C7.  As stated the claim is false (see `C7_counterexample`): the
amended claim proved here is that after any save of a journalist the
three subscription relations are all empty, and that for a saved
journalist validation (`clean`) succeeds exactly when
`subscribed_newsletters` and `subscribed_journalists` are both empty —
a journalist holding only publisher subscriptions passes validation,
since `clean` never inspects `subscribed_publishers`. -/
theorem C7_journalist_subscriptions (u : CustomUser)
    (h : u.role = Role.journalist) :
    (CustomUser.save u).subscribed_publishers = [] ∧
    (CustomUser.save u).subscribed_newsletters = [] ∧
    (CustomUser.save u).subscribed_journalists = [] ∧
    (CustomUser.clean u true = Except.ok () ↔
      (u.subscribed_newsletters = [] ∧ u.subscribed_journalists = [])) := by
  refine ⟨?_, ?_, ?_, ?_⟩
  · simp [CustomUser.save, h]
  · simp [CustomUser.save, h]
  · simp [CustomUser.save, h]
  · simp only [CustomUser.clean, h, Bool.not_true, if_true]
    constructor
    · intro hok
      by_cases h1 : u.subscribed_newsletters.isEmpty
        <;> by_cases h2 : u.subscribed_journalists.isEmpty
        <;> simp_all [List.isEmpty_iff]
    · intro ⟨h1, h2⟩
      simp [h1, h2]

/-- A saved journalist holding a publisher subscription and nothing
else (reachable: subscribe as a reader, then have the role changed to
journalist without a further save). -/
def journalistWithPubSub : CustomUser :=
  ⟨5, "journalist2", "j2@example.com", Role.journalist, [], [20], []⟩

/-- C7 counterexample: validation does not reject a journalist that
holds a publisher subscription — `clean` returns success even though
`subscribed_publishers` is non-empty. -/
theorem C7_counterexample :
    journalistWithPubSub.role = Role.journalist ∧
    journalistWithPubSub.subscribed_publishers ≠ [] ∧
    CustomUser.clean journalistWithPubSub true = Except.ok () :=
  ⟨rfl, by decide, rfl⟩

/-- Witness for `C7_journalist_subscriptions` at
`journalistWithPubSub`. -/
theorem C7_journalist_subscriptions_witness :
    (CustomUser.save journalistWithPubSub).subscribed_publishers = [] ∧
    (CustomUser.save journalistWithPubSub).subscribed_newsletters = [] ∧
    (CustomUser.save journalistWithPubSub).subscribed_journalists = [] ∧
    (CustomUser.clean journalistWithPubSub true = Except.ok () ↔
      (journalistWithPubSub.subscribed_newsletters = [] ∧
       journalistWithPubSub.subscribed_journalists = [])) :=
  C7_journalist_subscriptions journalistWithPubSub (by decide)

/-- C10.  For every rejected article, a successful edit by its
journalist author (own article, not approved, valid form) resets it to
pending — `is_rejected` becomes false and the reason, rejecter and
rejection date are all cleared — while the same edit performed by an
editor saves with all four rejection fields unchanged. -/
theorem C10_edit_resets_rejection (user : CustomUser) (f : ArticleForm)
    (a : Article) (hrej : a.is_rejected = true) :
    (user.role = Role.journalist → a.authorId = user.id →
      a.is_approved = false →
      (edit_article user f a).saved = true ∧
      (edit_article user f a).article.is_rejected = false ∧
      (edit_article user f a).article.rejected_reason = none ∧
      (edit_article user f a).article.rejectedById = none ∧
      (edit_article user f a).article.rejected_date = none) ∧
    (user.role = Role.editor →
      (edit_article user f a).saved = true ∧
      (edit_article user f a).article.is_rejected = a.is_rejected ∧
      (edit_article user f a).article.rejected_reason
        = a.rejected_reason ∧
      (edit_article user f a).article.rejectedById = a.rejectedById ∧
      (edit_article user f a).article.rejected_date = a.rejected_date) := by
  constructor
  · intro h1 h2 h3
    simp [edit_article, apply_form, h1, h2, h3, hrej]
  · intro h1
    have : user.role ≠ Role.journalist := by
      rw [h1]; intro hc; cases hc
    simp [edit_article, apply_form, h1, this]

/-- Witness for `C10_edit_resets_rejection`: the author's edit of the
concrete rejected article clears the rejection fields, and an editor's
edit of the same article keeps them. -/
theorem C10_edit_resets_rejection_witness :
    ((edit_article sampleJournalist ⟨"T3", "C3", "S3", none⟩
        rejectedArticle).saved = true ∧
     (edit_article sampleJournalist ⟨"T3", "C3", "S3", none⟩
        rejectedArticle).article.is_rejected = false ∧
     (edit_article sampleJournalist ⟨"T3", "C3", "S3", none⟩
        rejectedArticle).article.rejected_reason = none ∧
     (edit_article sampleJournalist ⟨"T3", "C3", "S3", none⟩
        rejectedArticle).article.rejectedById = none ∧
     (edit_article sampleJournalist ⟨"T3", "C3", "S3", none⟩
        rejectedArticle).article.rejected_date = none) ∧
    ((edit_article sampleEditor ⟨"T3", "C3", "S3", none⟩
        rejectedArticle).saved = true ∧
     (edit_article sampleEditor ⟨"T3", "C3", "S3", none⟩
        rejectedArticle).article.is_rejected
        = rejectedArticle.is_rejected ∧
     (edit_article sampleEditor ⟨"T3", "C3", "S3", none⟩
        rejectedArticle).article.rejected_reason
        = rejectedArticle.rejected_reason ∧
     (edit_article sampleEditor ⟨"T3", "C3", "S3", none⟩
        rejectedArticle).article.rejectedById
        = rejectedArticle.rejectedById ∧
     (edit_article sampleEditor ⟨"T3", "C3", "S3", none⟩
        rejectedArticle).article.rejected_date
        = rejectedArticle.rejected_date) :=
  ⟨(C10_edit_resets_rejection sampleJournalist ⟨"T3", "C3", "S3", none⟩
      rejectedArticle (by decide)).1 (by decide) (by decide) (by decide),
   (C10_edit_resets_rejection sampleEditor ⟨"T3", "C3", "S3", none⟩
      rejectedArticle (by decide)).2 (by decide)⟩

/-- A DRF JSON response: body message and HTTP status code. -/
structure ApiResponse where
  body : String
  code : Nat
deriving DecidableEq, Repr

/-- Outcome of a subscription endpoint: the response and the acting
user's row afterwards. -/
structure SubscribeResult where
  resp : ApiResponse
  user : CustomUser
deriving DecidableEq, Repr

/-- `subscribe_to_publisher` (views.py lines 1299-1323). -/
def subscribe_to_publisher (user : CustomUser) (pub : Publisher) :
    SubscribeResult :=
  if user.role ≠ Role.reader then
    ⟨⟨"Only readers can subscribe to publishers", 403⟩, user⟩
  else if pub.id ∈ user.subscribed_publishers then
    ⟨⟨"Already subscribed to " ++ pub.name, 200⟩, user⟩
  else
    ⟨⟨"Successfully subscribed to " ++ pub.name, 201⟩,
     { user with
        subscribed_publishers := m2m_add pub.id user.subscribed_publishers }⟩

/-- `unsubscribe_from_publisher` (views.py lines 1326-1347); the
many-to-many `remove` erases the relation row. -/
def unsubscribe_from_publisher (user : CustomUser) (pub : Publisher) :
    SubscribeResult :=
  if user.role ≠ Role.reader then
    ⟨⟨"Only readers can manage subscriptions", 403⟩, user⟩
  else if pub.id ∉ user.subscribed_publishers then
    ⟨⟨"Not subscribed to " ++ pub.name, 200⟩, user⟩
  else
    ⟨⟨"Successfully unsubscribed from " ++ pub.name, 200⟩,
     { user with
        subscribed_publishers := user.subscribed_publishers.erase pub.id }⟩

/-- `subscribe_to_journalist` (views.py lines 1350-1377); the
`get_object_or_404(CustomUser, id=..., role="journalist")` lookup 404s
when the target is not a journalist. -/
def subscribe_to_journalist (user : CustomUser) (j : CustomUser) :
    SubscribeResult :=
  if user.role ≠ Role.reader then
    ⟨⟨"Only readers can subscribe to journalists", 403⟩, user⟩
  else if j.role ≠ Role.journalist then
    ⟨⟨"Not found", 404⟩, user⟩
  else if j.id ∈ user.subscribed_journalists then
    ⟨⟨"Already subscribed to " ++ j.username, 200⟩, user⟩
  else
    ⟨⟨"Successfully subscribed to " ++ j.username, 201⟩,
     { user with
        subscribed_journalists := m2m_add j.id user.subscribed_journalists }⟩

/-- `unsubscribe_from_journalist` (views.py lines 1381-1401). -/
def unsubscribe_from_journalist (user : CustomUser) (j : CustomUser) :
    SubscribeResult :=
  if user.role ≠ Role.reader then
    ⟨⟨"Only readers can manage subscriptions", 403⟩, user⟩
  else if j.role ≠ Role.journalist then
    ⟨⟨"Not found", 404⟩, user⟩
  else if j.id ∉ user.subscribed_journalists then
    ⟨⟨"Not subscribed to " ++ j.username, 200⟩, user⟩
  else
    ⟨⟨"Successfully unsubscribed from " ++ j.username, 200⟩,
     { user with
        subscribed_journalists := user.subscribed_journalists.erase j.id }⟩

/-- `m2m_add` always relates the added id. -/
theorem mem_m2m_add_self (x : Nat) (xs : List Nat) : x ∈ m2m_add x xs := by
  unfold m2m_add
  split
  · assumption
  · simp

/-- C8.  For a reader already subscribed to a publisher (resp. a
journalist) the subscribe endpoint is a no-op reporting "already
subscribed" with the subscription sets unchanged; for a reader not
subscribed, the unsubscribe endpoint is a no-op reporting "not
subscribed" with the sets unchanged; and in particular subscribing to a
publisher twice leaves the state of the first subscription untouched. -/
theorem C8_subscription_idempotence (user : CustomUser) (pub : Publisher)
    (j : CustomUser) (hr : user.role = Role.reader) :
    (pub.id ∈ user.subscribed_publishers →
      subscribe_to_publisher user pub =
        ⟨⟨"Already subscribed to " ++ pub.name, 200⟩, user⟩) ∧
    (pub.id ∉ user.subscribed_publishers →
      unsubscribe_from_publisher user pub =
        ⟨⟨"Not subscribed to " ++ pub.name, 200⟩, user⟩) ∧
    (j.role = Role.journalist → j.id ∈ user.subscribed_journalists →
      subscribe_to_journalist user j =
        ⟨⟨"Already subscribed to " ++ j.username, 200⟩, user⟩) ∧
    (j.role = Role.journalist → j.id ∉ user.subscribed_journalists →
      unsubscribe_from_journalist user j =
        ⟨⟨"Not subscribed to " ++ j.username, 200⟩, user⟩) ∧
    (subscribe_to_publisher (subscribe_to_publisher user pub).user
        pub).user
      = (subscribe_to_publisher user pub).user := by
  refine ⟨?_, ?_, ?_, ?_, ?_⟩
  · intro hm
    simp [subscribe_to_publisher, hr, hm]
  · intro hm
    simp [unsubscribe_from_publisher, hr, hm]
  · intro hj hm
    simp [subscribe_to_journalist, hr, hj, hm]
  · intro hj hm
    simp [unsubscribe_from_journalist, hr, hj, hm]
  · by_cases hm : pub.id ∈ user.subscribed_publishers
    · simp [subscribe_to_publisher, hr, hm]
    · simp [subscribe_to_publisher, hr, hm, mem_m2m_add_self]

/-- A reader subscribed to `samplePublisherOrg` and to
`sampleJournalist`. -/
def sampleSubscribedReader : CustomUser :=
  ⟨6, "reader2", "r2@example.com", Role.reader, [], [20], [1]⟩

/-- Witness for `C8_subscription_idempotence`: a second subscribe call
by an already-subscribed reader and an unsubscribe call by a
non-subscribed reader, both no-ops. -/
theorem C8_subscription_idempotence_witness :
    subscribe_to_publisher sampleSubscribedReader samplePublisherOrg =
      ⟨⟨"Already subscribed to " ++ samplePublisherOrg.name, 200⟩,
       sampleSubscribedReader⟩ ∧
    unsubscribe_from_publisher sampleReader samplePublisherOrg =
      ⟨⟨"Not subscribed to " ++ samplePublisherOrg.name, 200⟩,
       sampleReader⟩ :=
  ⟨(C8_subscription_idempotence sampleSubscribedReader samplePublisherOrg
      sampleJournalist (by decide)).1 (by decide),
   (C8_subscription_idempotence sampleReader samplePublisherOrg
      sampleJournalist (by decide)).2.1 (by decide)⟩

/-- Sort key of `order_by("-published_date")`; a missing publication
date is keyed 0 (lowest, i.e. last in the descending order). -/
def pubDateKey (a : Article) : Nat := a.published_date.getD 0

/-- The descending publication-date ordering. -/
def feedOrder (x y : Article) : Prop := pubDateKey y ≤ pubDateKey x

instance : DecidableRel feedOrder := fun _ _ => Nat.decLe _ _

instance : IsTotal Article feedOrder :=
  ⟨fun x y => Nat.le_total (pubDateKey y) (pubDateKey x)⟩

instance : IsTrans Article feedOrder :=
  ⟨fun _ _ _ h1 h2 => Nat.le_trans h2 h1⟩

/-- `Q(publisher__in=subscribed_publishers)`: false for an article with
no publisher. -/
def publisherSubscribed (user : CustomUser) (a : Article) : Bool :=
  match a.publisherId with
  | some p => user.subscribed_publishers.contains p
  | none => false

/-- `Q(author__in=subscribed_journalists)`. -/
def authorSubscribed (user : CustomUser) (a : Article) : Bool :=
  user.subscribed_journalists.contains a.authorId

/-- `SubscriptionArticlesView.get_queryset` (views.py lines 1263-1296):
empty for non-readers, otherwise the approved articles matching either
disjunct, made distinct and ordered by publication date descending. -/
def subscription_get_queryset (user : CustomUser) (db : List Article) :
    List Article :=
  if user.role ≠ Role.reader then []
  else
    ((db.filter fun a =>
        a.is_approved && (publisherSubscribed user a
          || authorSubscribed user a)).dedup).insertionSort feedOrder

/-- Modelled from the spec's words, for comparison with
`subscription_get_queryset`: the union (as list concatenation, before
duplicate elimination) of the approved articles whose publisher the
reader subscribes to and the approved articles whose author the reader
subscribes to. -/
def spec_subscription_union (user : CustomUser) (db : List Article) :
    List Article :=
  (db.filter fun a => a.is_approved && publisherSubscribed user a)
    ++ (db.filter fun a => a.is_approved && authorSubscribed user a)

/-- C6.  For a reader the subscription feed has exactly the members of
the union of the approved articles of subscribed publishers and the
approved articles of subscribed journalists, with duplicates
eliminated (`Nodup`) and ordered descending by publication date
(`Sorted feedOrder`); for any user whose role is not reader the feed is
empty. -/
theorem C6_subscription_feed (user : CustomUser) (db : List Article) :
    (user.role ≠ Role.reader → subscription_get_queryset user db = []) ∧
    (user.role = Role.reader →
      (∀ a, a ∈ subscription_get_queryset user db ↔
         a ∈ spec_subscription_union user db) ∧
      (subscription_get_queryset user db).Nodup ∧
      (subscription_get_queryset user db).Sorted feedOrder) := by
  constructor
  · intro h
    simp [subscription_get_queryset, h]
  · intro h
    have hne : ¬ user.role ≠ Role.reader := by simp [h]
    refine ⟨?_, ?_, ?_⟩
    · intro a
      simp only [subscription_get_queryset, if_neg hne]
      rw [(List.perm_insertionSort feedOrder _).mem_iff, List.mem_dedup]
      simp only [spec_subscription_union, List.mem_append, List.mem_filter,
        Bool.and_eq_true, Bool.or_eq_true]
      tauto
    · simp only [subscription_get_queryset, if_neg hne]
      exact (List.perm_insertionSort feedOrder _).nodup_iff.mpr
        (List.nodup_dedup _)
    · simp only [subscription_get_queryset, if_neg hne]
      exact List.sorted_insertionSort feedOrder _
/-- An approved article of publisher 20 published at instant 5. -/
def articleA : Article :=
  ⟨11, "A", "CA", "SA", 7, some 20, false, true, some 2, false, none,
   none, some 5, none, some 5⟩

/-- An approved independent article by journalist 1 published at 9. -/
def articleB : Article :=
  ⟨12, "B", "CB", "SB", 1, none, false, true, some 2, false, none, none,
   some 9, none, some 9⟩

/-- A pending article of publisher 20. -/
def articleC : Article :=
  ⟨13, "C", "CC", "SC", 7, some 20, false, false, none, false, none,
   none, none, none, none⟩

/-- A small article table. -/
def sampleFeedDb : List Article := [articleA, articleB, articleC]

/-- Witness for `C6_subscription_feed` at `sampleSubscribedReader`
(subscribed to publisher 20 and journalist 1) over `sampleFeedDb`. -/
theorem C6_subscription_feed_witness :
    (∀ a, a ∈ subscription_get_queryset sampleSubscribedReader sampleFeedDb
       ↔ a ∈ spec_subscription_union sampleSubscribedReader sampleFeedDb) ∧
    (subscription_get_queryset sampleSubscribedReader sampleFeedDb).Nodup ∧
    (subscription_get_queryset sampleSubscribedReader
        sampleFeedDb).Sorted feedOrder :=
  (C6_subscription_feed sampleSubscribedReader sampleFeedDb).2 rfl

example :
    subscription_get_queryset sampleSubscribedReader sampleFeedDb
      = [articleB, articleA] := by
  decide

example : subscription_get_queryset sampleEditor sampleFeedDb = [] := by
  decide

/-- One prepared notification email: subject, body and the single
recipient address of the `send_mass_mail` tuple. -/
structure EmailMessage where
  subject : String
  body : String
  recipient : String
deriving DecidableEq, Repr

/-- The notification body (signals.py lines 118-134): author name,
publisher name or "Independent", and the summary or a 200-character
content excerpt. -/
def notification_body (article : Article) (authorName : String)
    (publisherName : Option String) : String :=
  "\nHello,\n\nA new article has been published that you might be "
    ++ "interested in:\n\nTitle: " ++ article.title
    ++ "\nAuthor: " ++ authorName
    ++ "\nPublisher: " ++ publisherName.getD "Independent"
    ++ "\n\nSummary:\n"
    ++ (if article.summary ≠ "" then article.summary
        else article.content.take 200 ++ "...")
    ++ "\n\nRead the full article on our website.\n\nBest regards,\n"
    ++ "The News Team\n    "

/-- The subscriber set gathered by `send_email_notifications`
(signals.py lines 97-110) over the user table: the union of the
publisher's `subscribed_readers` (reverse of `subscribed_publishers`,
empty when the article has no publisher) and the author's
`journalist_subscribers` (reverse of `subscribed_journalists`), with
the author discarded. -/
def notification_recipients (article : Article)
    (users : List CustomUser) : List CustomUser :=
  users.filter fun u =>
    (publisherSubscribed u article || authorSubscribed u article)
      && u.id != article.authorId

/-- `send_email_notifications` (signals.py lines 83-157): one
`send_mass_mail` tuple per gathered subscriber whose email address is
non-empty (`if subscriber.email:`). -/
def send_email_notifications (article : Article) (authorName : String)
    (publisherName : Option String) (users : List CustomUser) :
    List EmailMessage :=
  (notification_recipients article users).filterMap fun u =>
    if u.email ≠ "" then
      some ⟨"New Article Published: " ++ article.title,
            notification_body article authorName publisherName,
            u.email⟩
    else none

/-- `publisherSubscribed` in terms of membership. -/
theorem publisherSubscribed_iff (u : CustomUser) (a : Article) :
    publisherSubscribed u a = true ↔
      ∃ p, a.publisherId = some p ∧ p ∈ u.subscribed_publishers := by
  unfold publisherSubscribed
  cases h : a.publisherId with
  | none => simp
  | some p => simp

/-- A `filterMap` whose function is an if-some-none is the map over the
filtered list. -/
theorem filterMap_ite_eq_map_filter {α β : Type} (p : α → Prop)
    [DecidablePred p] (g : α → β) (l : List α) :
    (l.filterMap fun x => if p x then some (g x) else none)
      = (l.filter fun x => decide (p x)).map g := by
  induction l with
  | nil => rfl
  | cons x xs ih =>
      by_cases h : p x <;> simp [h, ih]

/-- C9.  For an approved article, over a user table with distinct ids:
the recipient set is exactly the users subscribed to the article's
publisher (when it has one) or to its author, with the author removed
and without duplicates; and the prepared messages are exactly one per
recipient with a non-empty email address (recipients with an empty
address receive none). -/
theorem C9_notification_fanout (article : Article) (authorName : String)
    (publisherName : Option String) (users : List CustomUser)
    (_happr : article.is_approved = true)
    (hids : users.Pairwise (fun u v => u.id ≠ v.id)) :
    (∀ u, u ∈ notification_recipients article users ↔
       (u ∈ users ∧ u.id ≠ article.authorId ∧
         ((∃ p, article.publisherId = some p
             ∧ p ∈ u.subscribed_publishers) ∨
          article.authorId ∈ u.subscribed_journalists))) ∧
    (notification_recipients article users).Nodup ∧
    send_email_notifications article authorName publisherName users =
      ((notification_recipients article users).filter
          (fun u => u.email ≠ "")).map
        (fun u =>
          ⟨"New Article Published: " ++ article.title,
           notification_body article authorName publisherName,
           u.email⟩) := by
  refine ⟨?_, ?_, ?_⟩
  · intro u
    simp only [notification_recipients, List.mem_filter,
      Bool.and_eq_true, Bool.or_eq_true, publisherSubscribed_iff,
      authorSubscribed, bne_iff_ne, ne_eq]
    constructor
    · rintro ⟨hmem, ⟨hsub, hne⟩⟩
      simp only [List.elem_eq_mem, decide_eq_true_eq] at hsub
      exact ⟨hmem, hne, hsub⟩
    · rintro ⟨hmem, hne, hsub⟩
      refine ⟨hmem, ?_, hne⟩
      simpa [List.elem_eq_mem] using hsub
  · exact List.Nodup.filter _
      (hids.imp fun hab heq => hab (congrArg CustomUser.id heq))
  · simp only [send_email_notifications]
    exact filterMap_ite_eq_map_filter _ _ _

/-- The user table used by the notification witness. -/
def sampleUserTable : List CustomUser :=
  [sampleSubscribedReader, sampleReader, journalistWithPubSub]

/-- Witness for `C9_notification_fanout` at `articleA` (approved,
publisher 20, author 7) over `sampleUserTable`. -/
theorem C9_notification_fanout_witness :
    (∀ u, u ∈ notification_recipients articleA sampleUserTable ↔
       (u ∈ sampleUserTable ∧ u.id ≠ articleA.authorId ∧
         ((∃ p, articleA.publisherId = some p
             ∧ p ∈ u.subscribed_publishers) ∨
          articleA.authorId ∈ u.subscribed_journalists))) ∧
    (notification_recipients articleA sampleUserTable).Nodup ∧
    send_email_notifications articleA "Author Seven" (some "Daily Planet")
        sampleUserTable =
      ((notification_recipients articleA sampleUserTable).filter
          (fun u => u.email ≠ "")).map
        (fun u =>
          ⟨"New Article Published: " ++ articleA.title,
           notification_body articleA "Author Seven" (some "Daily Planet"),
           u.email⟩) :=
  C9_notification_fanout articleA "Author Seven" (some "Daily Planet")
    sampleUserTable (by decide) (by decide)

example :
    (notification_recipients articleA sampleUserTable).map
        CustomUser.username
      = ["reader2", "journalist2"] := by
  decide
